import Mathlib

/-!
Shallow embedding of src/streamlit_app.py (the single UI script of the
repository lershuan/openapi-mock-interface) and proofs about it.

The script is operational glue: it writes an uploaded OpenAPI file to a
temporary path, launches a Node child process serving mock responses,
offers start/stop/health-check buttons and tails a log file.  Every
function below is translated from the source; effects on the operating
system (spawning, signalling, sleeping, HTTP requests) are recorded as an
explicit trace of actions, and facts about the file system and about the
child process are passed in as explicit parameters.
-/

/-- Model of bytes read from a file: a list of byte values. -/
def FileBytes := List Nat

/-- Path of the Node launch script, PROJECT_ROOT / "load-yaml-api.js"
(src line 18), as a function of the installation root. -/
def node_script_path (project_root : String) : String :=
  project_root ++ "/load-yaml-api.js"

/-- Facts about the operating system that the script consults: the result
of shutil.which for a name, whether a path exists, the installation root
(PROJECT_ROOT, src line 17), and whether an `npm ci` run would succeed. -/
structure OsEnv where
  which : String → Option String
  path_exists : String → Bool
  project_root : String
  npm_ci_ok : Bool

/-- Errors raised by the launch path of the script.  `scriptNotFound`
embeds the FileNotFoundError of src line 86, `dependencyMissing` embeds
the RuntimeError of src lines 34 and 48 naming the missing binary, and
`npmCiFailed` embeds the RuntimeError of src line 72. -/
inductive AppError where
  | scriptNotFound (path : String)
  | dependencyMissing (binary : String)
  | npmCiFailed
  deriving DecidableEq, Repr

/-- The candidate loop of ensure_node_available / ensure_npm_available
(src lines 31-33, 45-47): return the first candidate that is a non-empty
string and exists on disk (`if path and os.path.exists(path)`). -/
def first_existing (path_exists : String → Bool) : List (Option String) → Option String
  | [] => none
  | none :: rest => first_existing path_exists rest
  | some p :: rest =>
      if p ≠ "" && path_exists p then some p else first_existing path_exists rest

/-- Candidate list of ensure_node_available (src lines 23-30). -/
def node_candidates (E : OsEnv) : List (Option String) :=
  [E.which "node", E.which "nodejs",
   some "/usr/bin/node", some "/usr/local/bin/node",
   some "/usr/bin/nodejs", some "/usr/local/bin/nodejs"]

/-- ensure_node_available (src lines 21-36): first existing candidate, or
a RuntimeError naming Node.js. -/
def ensure_node_available (E : OsEnv) : Except AppError String :=
  match first_existing E.path_exists (node_candidates E) with
  | some p => .ok p
  | none => .error (.dependencyMissing "Node.js")

/-- Candidate list of ensure_npm_available (src lines 40-44). -/
def npm_candidates (E : OsEnv) : List (Option String) :=
  [E.which "npm", some "/usr/bin/npm", some "/usr/local/bin/npm"]

/-- ensure_npm_available (src lines 39-50). -/
def ensure_npm_available (E : OsEnv) : Except AppError String :=
  match first_existing E.path_exists (npm_candidates E) with
  | some p => .ok p
  | none => .error (.dependencyMissing "npm")

/-- ensure_node_dependencies_installed (src lines 53-72): skip when the
axios and express directories exist under node_modules, otherwise locate
npm and run `npm ci`, failing when it returns nonzero. -/
def ensure_node_dependencies_installed (E : OsEnv) : Except AppError Unit :=
  if E.path_exists (E.project_root ++ "/node_modules/axios")
      && E.path_exists (E.project_root ++ "/node_modules/express") then
    .ok ()
  else
    match ensure_npm_available E with
    | .error e => .error e
    | .ok _ => if E.npm_ci_ok then .ok () else .error .npmCiFailed

/-- The process invocation built by start_server: argument vector, working
directory and the two environment variables it sets (src lines 94-108). -/
structure SpawnSpec where
  cmd : List String
  cwd : String
  env_PORT : String
  env_HOST : String
  deriving DecidableEq, Repr

/-- start_server (src lines 84-109): raise ScriptNotFound when the launch
script is absent, then locate node, then ensure dependencies, then build
the Popen invocation `[node_exec, NODE_SCRIPT, spec_path]` with
cwd = PROJECT_ROOT and PORT / HOST placed in the environment. -/
def start_server (E : OsEnv) (spec_path : String) (port : Nat) (host : String) :
    Except AppError SpawnSpec :=
  if ¬ E.path_exists (node_script_path E.project_root) then
    .error (.scriptNotFound (node_script_path E.project_root))
  else
    match ensure_node_available E with
    | .error e => .error e
    | .ok node_exec =>
        match ensure_node_dependencies_installed E with
        | .error e => .error e
        | .ok _ =>
            .ok { cmd := [node_exec, node_script_path E.project_root, spec_path]
                  cwd := E.project_root
                  env_PORT := toString port
                  env_HOST := host }

/-- An uploaded file as the handler receives it: declared filename,
declared MIME type, content bytes.  write_uploaded_file (src lines 75-81)
reads only the name and the buffer. -/
structure UploadedFile where
  name : String
  mime : String
  content : List Nat
  deriving DecidableEq, Repr

/-- Index of the last occurrence of a dot in a character list, modelling
`name.rfind` in the CPython suffix computation. -/
def rfind_dot : List Char → Option Nat
  | [] => none
  | c :: rest =>
      match rfind_dot rest with
      | some i => some (i + 1)
      | none => if c = '.' then some 0 else none

/-- Splitting a character list at slash characters. -/
def split_slash : List Char → List (List Char)
  | [] => [[]]
  | c :: rest =>
      if c = '/' then [] :: split_slash rest
      else
        match split_slash rest with
        | g :: gs => (c :: g) :: gs
        | [] => [[c]]

/-- Final path component, modelling pathlib name access for the plain
file names the upload widget supplies. -/
def path_name (p : String) : String :=
  String.mk (((split_slash p.toList).filter (fun g => g ≠ [])).getLastD [])

/-- pathlib.PurePath(p).suffix: the part of the final component from its
last dot, empty when the last dot is at the start or at the very end. -/
def path_suffix (p : String) : String :=
  let cs := (path_name p).toList
  match rfind_dot cs with
  | some i => if 0 < i ∧ i + 1 < cs.length then String.mk (cs.drop i) else ""
  | none => ""

/-- The extension decision of write_uploaded_file (src line 76):
`pathlib.Path(uploaded.name).suffix or ".yaml"`.  The declared MIME type
of the upload is never consulted. -/
def write_uploaded_file_suffix (u : UploadedFile) : String :=
  let s := path_suffix u.name
  if s = "" then ".yaml" else s

/-- Modelled from the words of the specification for comparison with the
source (the source is write_uploaded_file_suffix): pick an extension by
JSON MIME to .json, YAML MIME variants to .yaml, otherwise the extension
of the declared filename. -/
def spec_claimed_suffix (mime : String) (name : String) : String :=
  if mime = "application/json" then ".json"
  else if mime = "application/x-yaml" || mime = "application/yaml"
      || mime = "text/yaml" || mime = "text/x-yaml" then ".yaml"
  else path_suffix name

/-- base_url (src lines 126-129): use localhost in place of host 0.0.0.0. -/
def base_url (host : String) (port : Nat) : String :=
  let host_for_client := if host = "0.0.0.0" then "localhost" else host
  "http://" ++ host_for_client ++ ":" ++ toString port

/-- The byte-level read of tail_file (src lines 134-138): when the file
size exceeds max_bytes, seek to max_bytes before the end and read, so the
result is the final max_bytes bytes; otherwise read the whole file. -/
def tail_file_bytes (content : List Nat) (max_bytes : Nat) : List Nat :=
  if content.length > max_bytes then
    content.drop (content.length - max_bytes)
  else
    content

/-- tail_file (src lines 132-140) with its default max_bytes of 16000.
The input is the outcome of reading the file: none when getsize or open
or read raises for any reason (the bare except of src line 139), in which
case the result is empty; decoding the bytes for display is not modelled,
and the empty byte list decodes to the empty string. -/
def tail_file (file : Option (List Nat)) : List Nat :=
  match file with
  | none => []
  | some content => tail_file_bytes content 16000

/-- Session state of the UI (src lines 147-152): the tracked child
process handle (a process id here) and the path of the last uploaded
spec file. -/
structure SessionState where
  server_proc : Option Nat
  spec_path : Option String
  deriving DecidableEq, Repr

/-- Effects the button handlers perform on the outside world, in order:
removing the log file, spawning a child, sleeping, an HTTP GET with its
timeout in time units, and the signals of stop_server together with its
bounded wait. -/
inductive Effect where
  | remove_log
  | spawn (pid : Nat)
  | sleep_ms (ms : Nat)
  | http_get (url : String) (timeout_s : Nat)
  | sigterm (pid : Nat)
  | wait_s (pid : Nat) (timeout_s : Nat)
  | sigkill (pid : Nat)
  deriving DecidableEq, Repr

/-- Whether an action is an HTTP request. -/
def Effect.is_http_get : Effect → Bool
  | .http_get _ _ => true
  | _ => false

/-- Whether an action stops a process (graceful or forced). -/
def Effect.is_stop_signal : Effect → Bool
  | .sigterm _ => true
  | .sigkill _ => true
  | _ => false

/-- Child processes outside the UI: the set of live process ids and the
id the next spawn will receive. -/
structure World where
  live : List Nat
  next_pid : Nat
  deriving DecidableEq, Repr

/-- Result of one button click: new session state, new world, and the
trace of actions the handler performed. -/
structure ClickResult where
  state : SessionState
  world : World
  trace : List Effect
  deriving DecidableEq, Repr

/-- Facts about the child process consulted while stopping it: whether
poll() reports it already exited, and whether it exits within the five
time unit grace window after the termination signal. -/
structure ProcState where
  exited : Nat → Bool
  exits_within_grace : Nat → Bool

/-- stop_server (src lines 112-123): a null handle is a no-op; a handle
whose poll() reports an exit is a no-op; otherwise send the termination
signal, wait up to five time units, and send the forced kill only when
the wait times out.  All exceptions are swallowed (src lines 122-123), so
the function is total and signals no error. -/
def stop_server (P : ProcState) (proc : Option Nat) : List Effect :=
  match proc with
  | none => []
  | some pid =>
      if P.exited pid then []
      else
        .sigterm pid :: .wait_s pid 5 ::
          (if P.exits_within_grace pid then [] else [.sigkill pid])

/-- The Start Server button handler (src lines 167-182).  The button is
disabled while a process handle is tracked (src line 167), so a click in
that state does nothing.  With no uploaded spec an error is shown and
nothing happens.  Otherwise the handler removes the previous log file,
calls start_server, and on success records the new handle and sleeps 0.3
time units; on any exception it shows the error and changes nothing. -/
def start_click (E : OsEnv) (port : Nat) (host : String)
    (s : SessionState) (w : World) : ClickResult :=
  if s.server_proc.isSome then ⟨s, w, []⟩
  else
    match s.spec_path with
    | none => ⟨s, w, []⟩
    | some sp =>
        match start_server E sp port host with
        | .error _ => ⟨s, w, [.remove_log]⟩
        | .ok _ =>
            let pid := w.next_pid
            ⟨{ s with server_proc := some pid },
             { live := pid :: w.live, next_pid := w.next_pid + 1 },
             [.remove_log, .spawn pid, .sleep_ms 300]⟩

/-- The Stop Server button handler (src lines 184-190).  The button is
disabled while no handle is tracked, so a click in that state does
nothing.  Otherwise it runs stop_server on the handle and nulls the
handle; after stop_server returns the child is no longer live (it had
exited, or exited within the grace window, or was forcibly killed). -/
def stop_click (P : ProcState) (s : SessionState) (w : World) : ClickResult :=
  match s.server_proc with
  | none => ⟨s, w, []⟩
  | some pid =>
      ⟨{ s with server_proc := none },
       { w with live := w.live.erase pid },
       stop_server P (some pid)⟩

/-- The Check Health button handler (src lines 201-208): a single GET of
the health URL derived from base_url, with a five time unit timeout; any
failure is caught and rendered, never retried. -/
def check_health_click (host : String) (port : Nat) : List Effect :=
  [.http_get (base_url host port ++ "/health") 5]

/-- The List Endpoints button handler (src lines 210-218): a single GET
of the endpoint listing URL derived from base_url, with an eight time
unit timeout. -/
def list_endpoints_click (host : String) (port : Nat) : List Effect :=
  [.http_get (base_url host port ++ "/spec/endpoints") 8]

/-! Concrete instances used by witnesses and counterexamples. -/

/-- An operating system in which node is on the PATH, every consulted
path exists (the launch script and the installed node_modules), and npm
would succeed. -/
def env_all_ok : OsEnv :=
  { which := fun name => if name = "node" then some "/usr/bin/node" else none
    path_exists := fun _ => true
    project_root := "/app"
    npm_ci_ok := true }

/-- An operating system in which only the launch script exists: node is
nowhere on the PATH and none of the fixed candidate paths exist. -/
def env_no_node : OsEnv :=
  { which := fun _ => none
    path_exists := fun p => p = "/app/load-yaml-api.js"
    project_root := "/app"
    npm_ci_ok := true }

/-- An operating system in which the launch script is absent. -/
def env_no_script : OsEnv :=
  { which := fun _ => none
    path_exists := fun _ => false
    project_root := "/app"
    npm_ci_ok := true }

/-- A session that has uploaded a spec and tracks no process. -/
def s_uploaded : SessionState := { server_proc := none, spec_path := some "/tmp/spec.yaml" }

/-- The world before any spawn: no live child, next process id zero. -/
def w0 : World := { live := [], next_pid := 0 }

/-- Result of a first Start Server click in the all-ok world. -/
def first_start : ClickResult := start_click env_all_ok 8000 "localhost" s_uploaded w0

/-- Result of a second, consecutive Start Server click. -/
def second_start : ClickResult :=
  start_click env_all_ok 8000 "localhost" first_start.state first_start.world

/-- A child process that poll() already reports as exited. -/
def P_dead : ProcState := { exited := fun _ => true, exits_within_grace := fun _ => true }

/-- A running child process that ignores the graceful termination signal
for the whole grace window. -/
def P_stubborn : ProcState := { exited := fun _ => false, exits_within_grace := fun _ => false }

/-! Claim theorems. -/

/-- C8: for every underlying file content, the log tail returns at most
the configured maximum byte budget of 16000 bytes, namely the last
min(size, 16000) bytes of the file. -/
theorem tail_file_bounded (content : List Nat) :
    (tail_file (some content)).length ≤ 16000 ∧
    (tail_file (some content)).length = min content.length 16000 ∧
    List.IsSuffix (tail_file (some content)) content := by
  simp only [tail_file, tail_file_bytes]
  by_cases h : content.length > 16000
  · rw [if_pos h]
    refine ⟨?_, ?_, List.drop_suffix _ _⟩
    · simp [List.length_drop]
      omega
    · simp [List.length_drop]
      omega
  · rw [if_neg h]
    exact ⟨by omega, by omega, List.suffix_rfl⟩

/-- C10: the log tailing operation is total, and when reading the file
fails for any reason (the bare except of src line 139, including a
missing file) it returns the empty result rather than propagating an
error. -/
theorem tail_file_total_on_failure : tail_file none = [] := rfl

/-- C9: the computed base URL is http://localhost:port exactly when the
host is 0.0.0.0 and http://host:port for any other host, and both the
Check Health and the List Endpoints requests are issued against this
URL. -/
theorem base_url_cases (host : String) (port : Nat) (h : host ≠ "0.0.0.0") :
    base_url "0.0.0.0" port = "http://localhost:" ++ toString port ∧
    base_url host port = "http://" ++ host ++ ":" ++ toString port ∧
    check_health_click host port = [.http_get (base_url host port ++ "/health") 5] ∧
    list_endpoints_click host port = [.http_get (base_url host port ++ "/spec/endpoints") 8] := by
  refine ⟨?_, ?_, rfl, rfl⟩
  · have hlit : (("http://" ++ "localhost") ++ ":" : String) = "http://localhost:" := by decide
    simp [base_url, ← String.append_assoc, hlit]
  · simp [base_url, h]

/-- C9 witness at host myhost and port 8000. -/
theorem base_url_cases_witness :
    base_url "0.0.0.0" 8000 = "http://localhost:" ++ toString 8000 ∧
    base_url "myhost" 8000 = "http://" ++ "myhost" ++ ":" ++ toString 8000 ∧
    check_health_click "myhost" 8000 = [.http_get (base_url "myhost" 8000 ++ "/health") 5] ∧
    list_endpoints_click "myhost" 8000
      = [.http_get (base_url "myhost" 8000 ++ "/spec/endpoints") 8] :=
  base_url_cases "myhost" 8000 (by decide)

/-- An upload whose declared MIME type is JSON while its declared
filename carries a yaml extension. -/
def upload_json_mime_yaml_name : UploadedFile :=
  { name := "spec.yaml", mime := "application/json", content := [] }

/-- C3 counterexample: the claim says a JSON MIME type gives extension
.json, but write_uploaded_file ignores the MIME type: on an upload with
MIME application/json and name spec.yaml the code picks .yaml while the
claimed rule picks .json. -/
theorem upload_suffix_mime_counterexample :
    write_uploaded_file_suffix upload_json_mime_yaml_name = ".yaml" ∧
    spec_claimed_suffix upload_json_mime_yaml_name.mime upload_json_mime_yaml_name.name
      = ".json" ∧
    (".yaml" : String) ≠ ".json" := by
  decide

/-- C3 (amended): the extension decision is a deterministic pure function
of the declared filename alone, ignoring the MIME type: any two uploads
with the same name get the same extension, namely the filename suffix
when it is nonempty and .yaml otherwise. -/
theorem upload_suffix_pure_function_of_name (u v : UploadedFile) (hname : v.name = u.name) :
    write_uploaded_file_suffix v = write_uploaded_file_suffix u ∧
    write_uploaded_file_suffix u
      = (if path_suffix u.name = "" then ".yaml" else path_suffix u.name) := by
  constructor
  · simp [write_uploaded_file_suffix, hname]
  · rfl

/-- C3 witness: two uploads sharing the name spec.yaml but with different
MIME types and contents receive the same extension. -/
theorem upload_suffix_pure_function_of_name_witness :
    write_uploaded_file_suffix ⟨"spec.yaml", "text/plain", [7]⟩
      = write_uploaded_file_suffix upload_json_mime_yaml_name ∧
    write_uploaded_file_suffix upload_json_mime_yaml_name
      = (if path_suffix upload_json_mime_yaml_name.name = "" then ".yaml"
         else path_suffix upload_json_mime_yaml_name.name) :=
  upload_suffix_pure_function_of_name upload_json_mime_yaml_name ⟨"spec.yaml", "text/plain", [7]⟩ rfl

/-- C4: stop is idempotent.  stop_server on a null handle is a no-op, on
an already-exited process is a no-op, and a second consecutive Stop click
changes nothing and performs no action; after any Stop click the session
state is at NoProcess (server_proc is none).  stop_server and stop_click
are total functions, embedding the fact that the handler swallows every
exception (src lines 122-123) and never raises. -/
theorem stop_idempotent (P : ProcState) (s : SessionState) (w : World) (pid : Nat)
    (hex : P.exited pid = true) :
    stop_server P none = [] ∧
    stop_server P (some pid) = [] ∧
    (stop_click P s w).state.server_proc = none ∧
    stop_click P (stop_click P s w).state (stop_click P s w).world
      = ⟨(stop_click P s w).state, (stop_click P s w).world, []⟩ := by
  have h3 : (stop_click P s w).state.server_proc = none := by
    cases hsp : s.server_proc <;> simp [stop_click, hsp]
  refine ⟨rfl, by simp [stop_server, hex], h3, ?_⟩
  cases hr : (stop_click P s w).state with
  | mk rproc rpath =>
      have : rproc = none := by rw [hr] at h3; exact h3
      subst this
      simp [stop_click]

/-- C4 witness: stopping a tracked, already-exited process with id 3. -/
theorem stop_idempotent_witness :
    stop_server P_dead none = [] ∧
    stop_server P_dead (some 3) = [] ∧
    (stop_click P_dead ⟨some 3, none⟩ w0).state.server_proc = none ∧
    stop_click P_dead (stop_click P_dead ⟨some 3, none⟩ w0).state
        (stop_click P_dead ⟨some 3, none⟩ w0).world
      = ⟨(stop_click P_dead ⟨some 3, none⟩ w0).state,
         (stop_click P_dead ⟨some 3, none⟩ w0).world, []⟩ :=
  stop_idempotent P_dead ⟨some 3, none⟩ w0 3 rfl

/-- C7: on a handle whose process has not exited, stop first sends the
graceful termination signal, then waits up to the bounded five time unit
interval, and sends the forced kill exactly when the process does not
exit within that interval. -/
theorem stop_graceful_then_kill (P : ProcState) (pid : Nat)
    (hrun : P.exited pid = false) :
    (stop_server P (some pid)).head? = some (.sigterm pid) ∧
    (stop_server P (some pid))[1]? = some (.wait_s pid 5) ∧
    (Effect.sigkill pid ∈ stop_server P (some pid) ↔ P.exits_within_grace pid = false) ∧
    (P.exits_within_grace pid = true →
      stop_server P (some pid) = [.sigterm pid, .wait_s pid 5]) := by
  cases hg : P.exits_within_grace pid <;> simp [stop_server, hrun, hg]

/-- C7 witness: a process with id 7 that ignores the graceful signal for
the whole grace window is forcibly killed. -/
theorem stop_graceful_then_kill_witness :
    (stop_server P_stubborn (some 7)).head? = some (.sigterm 7) ∧
    (stop_server P_stubborn (some 7))[1]? = some (.wait_s 7 5) ∧
    (Effect.sigkill 7 ∈ stop_server P_stubborn (some 7) ↔
      P_stubborn.exits_within_grace 7 = false) ∧
    (P_stubborn.exits_within_grace 7 = true →
      stop_server P_stubborn (some 7) = [.sigterm 7, .wait_s 7 5]) :=
  stop_graceful_then_kill P_stubborn 7 rfl

/-- C5: when the Node executable cannot be located (and the launch script
is present), start fails with the dependency error naming the missing
binary; when the launch script is absent, start fails with the script
error; in either case the Start click records no process handle and the
session stays at NoProcess. -/
theorem start_failure_modes (E1 E2 : OsEnv) (sp host : String) (port : Nat)
    (s1 s2 : SessionState) (w : World)
    (h1proc : s1.server_proc = none) (h1path : s1.spec_path = some sp)
    (h2proc : s2.server_proc = none) (h2path : s2.spec_path = some sp)
    (h1script : E1.path_exists (node_script_path E1.project_root) = true)
    (h1node : first_existing E1.path_exists (node_candidates E1) = none)
    (h2script : E2.path_exists (node_script_path E2.project_root) = false) :
    start_server E1 sp port host = .error (.dependencyMissing "Node.js") ∧
    start_server E2 sp port host
      = .error (.scriptNotFound (node_script_path E2.project_root)) ∧
    (start_click E1 port host s1 w).state.server_proc = none ∧
    (start_click E2 port host s2 w).state.server_proc = none := by
  have e1 : start_server E1 sp port host = .error (.dependencyMissing "Node.js") := by
    simp [start_server, h1script, ensure_node_available, h1node]
  have e2 : start_server E2 sp port host
      = .error (.scriptNotFound (node_script_path E2.project_root)) := by
    simp [start_server, h2script]
  refine ⟨e1, e2, ?_, ?_⟩
  · simp [start_click, h1proc, h1path, e1]
  · simp [start_click, h2proc, h2path, e2]

/-- C5 witness: a world with only the launch script on disk yields the
dependency error, a world with nothing on disk yields the script error,
and in both the session keeps no process handle. -/
theorem start_failure_modes_witness :
    start_server env_no_node "/tmp/spec.yaml" 8000 "localhost"
      = .error (.dependencyMissing "Node.js") ∧
    start_server env_no_script "/tmp/spec.yaml" 8000 "localhost"
      = .error (.scriptNotFound (node_script_path env_no_script.project_root)) ∧
    (start_click env_no_node 8000 "localhost" s_uploaded w0).state.server_proc = none ∧
    (start_click env_no_script 8000 "localhost" s_uploaded w0).state.server_proc = none :=
  start_failure_modes env_no_node env_no_script "/tmp/spec.yaml" "localhost" 8000
    s_uploaded s_uploaded w0 rfl rfl rfl rfl (by decide) (by decide) (by decide)

/-- C6 counterexample: the claim says port and host are passed as
command-line arguments, but in the concrete all-ok world the launched
command line is exactly node, script, spec path: the strings 8000 and
localhost appear nowhere in it (they travel only in the environment). -/
theorem start_server_cmd_counterexample :
    start_server env_all_ok "/tmp/spec.yaml" 8000 "localhost"
      = .ok { cmd := ["/usr/bin/node", "/app/load-yaml-api.js", "/tmp/spec.yaml"]
              cwd := "/app", env_PORT := "8000", env_HOST := "localhost" } ∧
    "8000" ∉ ["/usr/bin/node", "/app/load-yaml-api.js", "/tmp/spec.yaml"] ∧
    "localhost" ∉ ["/usr/bin/node", "/app/load-yaml-api.js", "/tmp/spec.yaml"] := by
  constructor
  · rfl
  · constructor <;> decide

/-- C6 (amended): a successful start launches the child with the command
line consisting of exactly the node executable, the launch script and
the spec file path; port and host are carried only by the PORT and HOST
environment variables, and the working directory is the installation
root. -/
theorem start_server_invocation (E : OsEnv) (sp host : String) (port : Nat)
    (out : SpawnSpec) (hok : start_server E sp port host = .ok out) :
    (∃ node_exec, first_existing E.path_exists (node_candidates E) = some node_exec ∧
        out.cmd = [node_exec, node_script_path E.project_root, sp]) ∧
    out.cwd = E.project_root ∧
    out.env_PORT = toString port ∧
    out.env_HOST = host ∧
    out.cmd.length = 3 := by
  unfold start_server at hok
  split at hok
  · exact absurd hok (by simp)
  · cases hnode : ensure_node_available E with
    | error e => rw [hnode] at hok; exact absurd hok (by simp)
    | ok node_exec =>
        rw [hnode] at hok
        cases hdeps : ensure_node_dependencies_installed E with
        | error e => rw [hdeps] at hok; exact absurd hok (by simp)
        | ok u =>
            rw [hdeps] at hok
            have hout := Except.ok.inj hok
            have hfe : first_existing E.path_exists (node_candidates E) = some node_exec := by
              unfold ensure_node_available at hnode
              cases hx : first_existing E.path_exists (node_candidates E) <;>
                rw [hx] at hnode <;> simp_all
            subst hout
            exact ⟨⟨node_exec, hfe, rfl⟩, rfl, rfl, rfl, rfl⟩

/-- C6 witness: the concrete successful start in the all-ok world. -/
theorem start_server_invocation_witness :
    (∃ node_exec,
        first_existing env_all_ok.path_exists (node_candidates env_all_ok) = some node_exec ∧
        (SpawnSpec.mk ["/usr/bin/node", "/app/load-yaml-api.js", "/tmp/spec.yaml"]
            "/app" "8000" "localhost").cmd
          = [node_exec, node_script_path env_all_ok.project_root, "/tmp/spec.yaml"]) ∧
    (SpawnSpec.mk ["/usr/bin/node", "/app/load-yaml-api.js", "/tmp/spec.yaml"]
        "/app" "8000" "localhost").cwd = env_all_ok.project_root ∧
    (SpawnSpec.mk ["/usr/bin/node", "/app/load-yaml-api.js", "/tmp/spec.yaml"]
        "/app" "8000" "localhost").env_PORT = toString 8000 ∧
    (SpawnSpec.mk ["/usr/bin/node", "/app/load-yaml-api.js", "/tmp/spec.yaml"]
        "/app" "8000" "localhost").env_HOST = "localhost" ∧
    (SpawnSpec.mk ["/usr/bin/node", "/app/load-yaml-api.js", "/tmp/spec.yaml"]
        "/app" "8000" "localhost").cmd.length = 3 :=
  start_server_invocation env_all_ok "/tmp/spec.yaml" "localhost" 8000 _ rfl

/-- C1 counterexample: in the concrete all-ok world, the first Start
click spawns process 0 and a second consecutive Start click is a no-op
(the Start button is disabled while a handle is tracked, src line 167):
no termination or kill signal is ever sent, process 0 is still live and
still the tracked handle afterwards, so start does not stop a previously
tracked process and the first process has not exited. -/
theorem start_click_never_stops_previous :
    first_start.state.server_proc = some 0 ∧
    second_start.state.server_proc = some 0 ∧
    second_start.world.live = [0] ∧
    (first_start.trace ++ second_start.trace).filter Effect.is_stop_signal = [] ∧
    second_start.trace = [] := by
  decide

/-- C1 (amended): the at-most-one-child invariant holds, but through the
disabled Start button rather than a stop-before-start: a successful Start
click from a session with no tracked process spawns exactly one child,
which becomes the single live process and the tracked handle; any Start
click while a handle is tracked is a no-op; and the start path never
emits a stop signal. -/
theorem start_click_at_most_one_process (E : OsEnv) (port : Nat) (host sp : String)
    (w w2 : World) (s2 : SessionState) (out : SpawnSpec)
    (hok : start_server E sp port host = .ok out) (hw : w.live = [])
    (hs2 : s2.server_proc = some w.next_pid) :
    start_click E port host ⟨none, some sp⟩ w
      = ⟨⟨some w.next_pid, some sp⟩, ⟨[w.next_pid], w.next_pid + 1⟩,
         [.remove_log, .spawn w.next_pid, .sleep_ms 300]⟩ ∧
    start_click E port host s2 w2 = ⟨s2, w2, []⟩ ∧
    ([Effect.remove_log, Effect.spawn w.next_pid, Effect.sleep_ms 300].filter
        Effect.is_stop_signal) = [] := by
  refine ⟨?_, ?_, rfl⟩
  · simp [start_click, hok, hw]
  · simp [start_click, hs2]

/-- C1 witness: the concrete all-ok first click and a second click on the
resulting session. -/
theorem start_click_at_most_one_process_witness :
    start_click env_all_ok 8000 "localhost" ⟨none, some "/tmp/spec.yaml"⟩ w0
      = ⟨⟨some w0.next_pid, some "/tmp/spec.yaml"⟩, ⟨[w0.next_pid], w0.next_pid + 1⟩,
         [.remove_log, .spawn w0.next_pid, .sleep_ms 300]⟩ ∧
    start_click env_all_ok 8000 "localhost" ⟨some 0, some "/tmp/spec.yaml"⟩ ⟨[0], 1⟩
      = ⟨⟨some 0, some "/tmp/spec.yaml"⟩, ⟨[0], 1⟩, []⟩ ∧
    ([Effect.remove_log, Effect.spawn w0.next_pid, Effect.sleep_ms 300].filter
        Effect.is_stop_signal) = [] :=
  start_click_at_most_one_process env_all_ok 8000 "localhost" "/tmp/spec.yaml" w0 ⟨[0], 1⟩
    ⟨some 0, some "/tmp/spec.yaml"⟩ _ rfl rfl rfl

/-- C2 counterexample: the claim says that after launching the child a
readiness prober polls the health URL on a half time unit cadence for a
ten time unit window; but the successful Start click in the concrete
all-ok world performs exactly a log removal, one spawn and one 0.3 time
unit sleep: it issues no HTTP request at all, so no health polling
happens during start. -/
theorem start_click_no_health_poll_counterexample :
    (start_click env_all_ok 8000 "localhost" s_uploaded w0).trace
      = [.remove_log, .spawn 0, .sleep_ms 300] ∧
    (start_click env_all_ok 8000 "localhost" s_uploaded w0).trace.filter
        Effect.is_http_get = [] := by
  decide

/-- C2 (amended): the start path performs no readiness polling at all:
for every world and session, the Start click trace contains no HTTP
request and has at most three actions (so it trivially terminates, there
is no loop); health is probed only on demand by the Check Health button,
a single GET of the health URL with a five time unit per-attempt
timeout. -/
theorem start_click_no_poll_loop (E : OsEnv) (port : Nat) (host : String)
    (s : SessionState) (w : World) :
    (start_click E port host s w).trace.filter Effect.is_http_get = [] ∧
    (start_click E port host s w).trace.length ≤ 3 ∧
    check_health_click host port = [.http_get (base_url host port ++ "/health") 5] := by
  refine ⟨?_, ?_, rfl⟩ <;>
    · cases hp : s.server_proc with
      | some pid => simp [start_click, hp]
      | none =>
          cases hsp : s.spec_path with
          | none => simp [start_click, hp, hsp]
          | some sp =>
              cases hstart : start_server E sp port host <;>
                simp [start_click, hp, hsp, hstart, Effect.is_http_get]
